import Mathlib

/-!
# Verification of the xclim run-length / calendar-alignment core

This file embeds the algorithmic core of the `xclim` indices library:
the run-length engine (`longest_run`, `windowed_run_count`,
`windowed_run_events`), the day-of-year calendar alignment, and the
indicator functions of `xclim/indices/indices.py` that consume them
(`cold_spell_duration_index`, `warm_spell_duration_index`, the
percentile day-count indicators, `heat_wave_frequency`,
`heat_wave_max_length`, `liquid_precip_ratio`, `winter_rain_ratio`).

The run-length engine itself (module `xclim.run_length`, imported as
`rl`) and `utils.adjust_doy_calendar` are not part of the sources at
hand, only their callers are; those definitions are modelled from the
specification's description of their contract (a single linear scan
that tracks the current run length and flushes a completed run when a
`false` is met or the group ends; circular interpolation for missing
day-of-year entries) and are marked `Modelled from the spec:` below.
-/

set_option autoImplicit false

namespace Xclim

/-! ## Run-length engine -/

/-- Modelled from the spec: the list of lengths of the maximal runs of
consecutive `true` values of a boolean group, produced by the single
linear scan described in the spec (section 4.2, "Shared algorithm"):
`cur` is the running counter of the current run, flushed whenever a
`false` is met or the group ends. `rl.run_length` internals are not in
the sources; only their callers are. -/
def runLengthsAux : List Bool → Nat → List Nat
  | [], cur => if cur = 0 then [] else [cur]
  | true :: rest, cur => runLengthsAux rest (cur + 1)
  | false :: rest, cur =>
      if cur = 0 then runLengthsAux rest 0 else cur :: runLengthsAux rest 0

/-- Lengths of the maximal runs of `true` in a boolean group, in order. -/
def runLengths (s : List Bool) : List Nat := runLengthsAux s 0

/-- Modelled from the spec: scan for `rl.longest_run`, tracking the
current run length and taking the maximum of all flushed runs. -/
def longestRunAux : List Bool → Nat → Nat
  | [], cur => cur
  | true :: rest, cur => longestRunAux rest (cur + 1)
  | false :: rest, cur => max cur (longestRunAux rest 0)

/-- Modelled from the spec: `rl.longest_run`, the maximum number of
consecutive `true` values in a group.  The module `xclim.run_length`
is not among the sources; the definition follows the spec's linear
scan contract. -/
def longest_run (s : List Bool) : Nat := longestRunAux s 0

/-- Modelled from the spec: scan for `rl.windowed_run_count`; a flushed
run contributes 1 when it is non-empty and its length reaches `w`. -/
def windowedRunCountAux (w : Nat) : List Bool → Nat → Nat
  | [], cur => if 0 < cur ∧ w ≤ cur then 1 else 0
  | true :: rest, cur => windowedRunCountAux w rest (cur + 1)
  | false :: rest, cur =>
      (if 0 < cur ∧ w ≤ cur then 1 else 0) + windowedRunCountAux w rest 0

/-- Modelled from the spec: `rl.windowed_run_count`, the number of
maximal runs of consecutive `true` values of length at least `w`;
each qualifying run contributes exactly 1. -/
def windowed_run_count (s : List Bool) (w : Nat) : Nat :=
  windowedRunCountAux w s 0

/-- Modelled from the spec: scan for `rl.windowed_run_events`; a flushed
run of length `cur ≥ w` contributes its full length `cur`. -/
def windowedRunEventsAux (w : Nat) : List Bool → Nat → Nat
  | [], cur => if 0 < cur ∧ w ≤ cur then cur else 0
  | true :: rest, cur => windowedRunEventsAux w rest (cur + 1)
  | false :: rest, cur =>
      (if 0 < cur ∧ w ≤ cur then cur else 0) + windowedRunEventsAux w rest 0

/-- Modelled from the spec: `rl.windowed_run_events`, the total number
of `true` entries belonging to some maximal run of length at least `w`:
a run of length `L ≥ w` contributes `L`, a shorter run contributes 0. -/
def windowed_run_events (s : List Bool) (w : Nat) : Nat :=
  windowedRunEventsAux w s 0

/-- Error taxonomy of the core, as named by the spec (section 7).  The
Python code raises `AttributeError` where the spec says
`CalendarMismatchError`; the constructor carries the raised message. -/
inductive XclimError where
  | CalendarMismatchError (msg : String) : XclimError
  | InvalidWindowError (msg : String) : XclimError
deriving DecidableEq, Repr

/-- True exactly when a computation ended in an error. -/
def isErr {α : Type} : Except XclimError α → Bool
  | Except.error _ => true
  | Except.ok _ => false

/-- True exactly when a computation ended in a `CalendarMismatchError`. -/
def isCalendarMismatch {α : Type} : Except XclimError α → Bool
  | Except.error (XclimError.CalendarMismatchError _) => true
  | _ => false

/-- Modelled from the spec: the checked entry point of
`rl.windowed_run_count`; the engine fails with `InvalidWindowError`
when `window ≤ 0` (section 4.2, failure semantics). -/
def windowed_run_count_checked (s : List Bool) (w : Int) :
    Except XclimError Nat :=
  if w ≤ 0 then
    Except.error (XclimError.InvalidWindowError "window must be a positive integer")
  else Except.ok (windowed_run_count s w.toNat)

/-- Modelled from the spec: the checked entry point of
`rl.windowed_run_events`; fails with `InvalidWindowError` when
`window ≤ 0`. -/
def windowed_run_events_checked (s : List Bool) (w : Int) :
    Except XclimError Nat :=
  if w ≤ 0 then
    Except.error (XclimError.InvalidWindowError "window must be a positive integer")
  else Except.ok (windowed_run_events s w.toNat)

/-- Declarative decomposition of a boolean group into its maximal runs
of `true`: `RunsSpec s rs` holds when `rs` lists, in order, the lengths
of the maximal runs of consecutive `true` values of `s`.  A run is a
non-empty block of `true` followed by a `false` or by the end of the
group; blocks are separated by the interleaved `false` entries. -/
inductive RunsSpec : List Bool → List Nat → Prop where
  | nil : RunsSpec [] []
  | cons_false {s : List Bool} {rs : List Nat} :
      RunsSpec s rs → RunsSpec (false :: s) rs
  | run {n : Nat} {s : List Bool} {rs : List Nat} :
      0 < n → (s = [] ∨ ∃ t, s = false :: t) → RunsSpec s rs →
      RunsSpec (List.replicate n true ++ s) (n :: rs)

/-! ### Basic lemmas about the scans -/

theorem runLengthsAux_replicate_true (n : Nat) :
    ∀ (s : List Bool) (cur : Nat),
      runLengthsAux (List.replicate n true ++ s) cur = runLengthsAux s (cur + n) := by
  induction n with
  | zero => intro s cur; simp [List.replicate]
  | succ n ih =>
      intro s cur
      rw [List.replicate_succ, List.cons_append]
      simp only [runLengthsAux]
      rw [ih s (cur + 1)]
      congr 1
      omega

theorem longestRunAux_replicate_true (n : Nat) :
    ∀ (s : List Bool) (cur : Nat),
      longestRunAux (List.replicate n true ++ s) cur = longestRunAux s (cur + n) := by
  induction n with
  | zero => intro s cur; simp [List.replicate]
  | succ n ih =>
      intro s cur
      rw [List.replicate_succ, List.cons_append]
      simp only [longestRunAux]
      rw [ih s (cur + 1)]
      congr 1
      omega

theorem windowedRunCountAux_replicate_true (w n : Nat) :
    ∀ (s : List Bool) (cur : Nat),
      windowedRunCountAux w (List.replicate n true ++ s) cur =
        windowedRunCountAux w s (cur + n) := by
  induction n with
  | zero => intro s cur; simp [List.replicate]
  | succ n ih =>
      intro s cur
      rw [List.replicate_succ, List.cons_append]
      simp only [windowedRunCountAux]
      rw [ih s (cur + 1)]
      congr 1
      omega

theorem windowedRunEventsAux_replicate_true (w n : Nat) :
    ∀ (s : List Bool) (cur : Nat),
      windowedRunEventsAux w (List.replicate n true ++ s) cur =
        windowedRunEventsAux w s (cur + n) := by
  induction n with
  | zero => intro s cur; simp [List.replicate]
  | succ n ih =>
      intro s cur
      rw [List.replicate_succ, List.cons_append]
      simp only [windowedRunEventsAux]
      rw [ih s (cur + 1)]
      congr 1
      omega

theorem runLengths_false_cons (s : List Bool) :
    runLengths (false :: s) = runLengths s := by
  simp [runLengths, runLengthsAux]

theorem windowed_run_count_false_cons (s : List Bool) (w : Nat) :
    windowed_run_count (false :: s) w = windowed_run_count s w := by
  simp [windowed_run_count, windowedRunCountAux]

theorem windowed_run_events_false_cons (s : List Bool) (w : Nat) :
    windowed_run_events (false :: s) w = windowed_run_events s w := by
  simp [windowed_run_events, windowedRunEventsAux]

theorem longest_run_false_cons (s : List Bool) :
    longest_run (false :: s) = longest_run s := by
  simp [longest_run, longestRunAux]

end Xclim

namespace Xclim

/-! ### The scan computes exactly the maximal-run decomposition -/

theorem runsSpec_runLengths : ∀ s : List Bool, RunsSpec s (runLengths s) := by
  intro s
  induction s with
  | nil => exact RunsSpec.nil
  | cons b t ih =>
      cases b with
      | false =>
          rw [runLengths_false_cons]
          exact RunsSpec.cons_false ih
      | true =>
          generalize hrs : runLengths t = rt at ih
          cases ih with
          | nil =>
              have h1 : runLengths [true] = [1] := rfl
              rw [h1]
              exact RunsSpec.run Nat.one_pos (Or.inl rfl) RunsSpec.nil
          | cons_false h =>
              rename_i t0
              have h0 : runLengths t0 = rt := by
                rw [← runLengths_false_cons t0]; exact hrs
              have h1 : runLengths (true :: false :: t0) = 1 :: runLengths t0 := rfl
              rw [h1, h0]
              exact RunsSpec.run Nat.one_pos (Or.inr ⟨t0, rfl⟩) (RunsSpec.cons_false h)
          | run hp hshape h =>
              rename_i n s0 rs0
              have key : runLengthsAux s0 n = n :: rs0 := by
                have h2 : runLengths (List.replicate n true ++ s0) = n :: rs0 := hrs
                rwa [runLengths, runLengthsAux_replicate_true, Nat.zero_add] at h2
              have h3 : runLengths (true :: (List.replicate n true ++ s0)) =
                  runLengthsAux s0 (1 + n) := by
                show runLengthsAux (List.replicate n true ++ s0) 1 = runLengthsAux s0 (1 + n)
                rw [runLengthsAux_replicate_true]
              rw [h3]
              rcases hshape with h0 | ⟨u, hu⟩
              · subst h0
                have hn : ¬ n = 0 := Nat.pos_iff_ne_zero.mp hp
                have hrs0 : rs0 = [] := by
                  simp only [runLengthsAux, if_neg hn] at key
                  exact (List.cons.inj key).2.symm
                subst hrs0
                have h4 : runLengthsAux ([] : List Bool) (1 + n) = [n + 1] := by
                  simp only [runLengthsAux]
                  rw [if_neg (by omega)]
                  simp [Nat.add_comm]
                rw [h4]
                exact RunsSpec.run (Nat.succ_pos n) (Or.inl rfl) RunsSpec.nil
              · subst hu
                have hn : ¬ n = 0 := Nat.pos_iff_ne_zero.mp hp
                have hu0 : runLengthsAux u 0 = rs0 := by
                  simp only [runLengthsAux, if_neg hn] at key
                  exact (List.cons.inj key).2
                have h4 : runLengthsAux (false :: u) (1 + n) = (n + 1) :: rs0 := by
                  simp only [runLengthsAux]
                  rw [if_neg (by omega), hu0]
                  simp [Nat.add_comm]
                rw [h4]
                exact RunsSpec.run (Nat.succ_pos n) (Or.inr ⟨u, rfl⟩) h

theorem runsSpec_nil_inv {s : List Bool} {rs : List Nat}
    (h : RunsSpec s rs) (hs : s = []) : rs = [] := by
  cases h with
  | nil => rfl
  | cons_false h => simp at hs
  | run hp hshape h =>
      rename_i n s0 rs0
      exfalso
      rcases List.append_eq_nil.mp hs with ⟨h1, h2⟩
      rw [List.replicate_eq_nil_iff] at h1
      omega

theorem runsSpec_unique {s : List Bool} {rs : List Nat} (h : RunsSpec s rs) :
    rs = runLengths s := by
  induction h with
  | nil => rfl
  | cons_false h ih => rw [runLengths_false_cons]; exact ih
  | run hp hshape h ih =>
      rename_i n s0 rs0
      have key : runLengths (List.replicate n true ++ s0) = runLengthsAux s0 n := by
        rw [runLengths, runLengthsAux_replicate_true, Nat.zero_add]
      rw [key]
      have hn : ¬ n = 0 := Nat.pos_iff_ne_zero.mp hp
      rcases hshape with h0 | ⟨u, hu⟩
      · subst h0
        have hrs0 : rs0 = [] := runsSpec_nil_inv h rfl
        subst hrs0
        simp [runLengthsAux, if_neg hn]
      · subst hu
        simp only [runLengthsAux, if_neg hn]
        rw [ih, runLengths_false_cons]
        rfl

theorem windowed_run_count_of_runsSpec {s : List Bool} {rs : List Nat}
    (h : RunsSpec s rs) (w : Nat) :
    windowed_run_count s w = (rs.filter (fun L => decide (w ≤ L))).length := by
  induction h with
  | nil => simp [windowed_run_count, windowedRunCountAux]
  | cons_false h ih => rw [windowed_run_count_false_cons]; exact ih
  | run hp hshape h ih =>
      rename_i n s0 rs0
      have key : windowed_run_count (List.replicate n true ++ s0) w =
          windowedRunCountAux w s0 n := by
        rw [windowed_run_count, windowedRunCountAux_replicate_true, Nat.zero_add]
      rw [key]
      rcases hshape with h0 | ⟨u, hu⟩
      · subst h0
        have hrs0 : rs0 = [] := runsSpec_nil_inv h rfl
        subst hrs0
        by_cases hw : w ≤ n
        · simp [windowedRunCountAux, hp, hw]
        · simp [windowedRunCountAux, hp, hw]
      · subst hu
        have ih2 : windowedRunCountAux w u 0 =
            (rs0.filter (fun L => decide (w ≤ L))).length := by
          rw [windowed_run_count_false_cons u w] at ih
          exact ih
        by_cases hw : w ≤ n
        · simp [windowedRunCountAux, hp, hw, ih2, Nat.add_comm]
        · simp [windowedRunCountAux, hp, hw, ih2, Nat.add_comm]

theorem windowed_run_events_of_runsSpec {s : List Bool} {rs : List Nat}
    (h : RunsSpec s rs) (w : Nat) :
    windowed_run_events s w = (rs.filter (fun L => decide (w ≤ L))).sum := by
  induction h with
  | nil => simp [windowed_run_events, windowedRunEventsAux]
  | cons_false h ih => rw [windowed_run_events_false_cons]; exact ih
  | run hp hshape h ih =>
      rename_i n s0 rs0
      have key : windowed_run_events (List.replicate n true ++ s0) w =
          windowedRunEventsAux w s0 n := by
        rw [windowed_run_events, windowedRunEventsAux_replicate_true, Nat.zero_add]
      rw [key]
      rcases hshape with h0 | ⟨u, hu⟩
      · subst h0
        have hrs0 : rs0 = [] := runsSpec_nil_inv h rfl
        subst hrs0
        by_cases hw : w ≤ n
        · simp [windowedRunEventsAux, hp, hw]
        · simp [windowedRunEventsAux, hp, hw]
      · subst hu
        have ih2 : windowedRunEventsAux w u 0 =
            (rs0.filter (fun L => decide (w ≤ L))).sum := by
          rw [windowed_run_events_false_cons u w] at ih
          exact ih
        by_cases hw : w ≤ n
        · simp [windowedRunEventsAux, hp, hw, ih2, Nat.add_comm]
        · simp [windowedRunEventsAux, hp, hw, ih2, Nat.add_comm]

end Xclim

namespace Xclim

/-! ### Bounds and degenerate inputs -/

theorem longestRunAux_le (s : List Bool) :
    ∀ cur : Nat, longestRunAux s cur ≤ cur + s.length := by
  induction s with
  | nil => intro cur; simp [longestRunAux]
  | cons b t ih =>
      intro cur
      cases b with
      | true =>
          simp only [longestRunAux, List.length_cons]
          have := ih (cur + 1)
          omega
      | false =>
          simp only [longestRunAux, List.length_cons]
          have := ih 0
          apply max_le <;> omega

theorem longestRunAux_eq_zero (s : List Bool) :
    ∀ cur : Nat, (longestRunAux s cur = 0 ↔ cur = 0 ∧ ∀ b ∈ s, b = false) := by
  induction s with
  | nil => intro cur; simp [longestRunAux]
  | cons b t ih =>
      intro cur
      cases b with
      | true =>
          simp only [longestRunAux, List.forall_mem_cons]
          rw [ih (cur + 1)]
          simp
      | false =>
          simp only [longestRunAux, List.forall_mem_cons]
          rw [Nat.max_eq_zero_iff, ih 0]
          simp

theorem longest_run_le_length (s : List Bool) : longest_run s ≤ s.length := by
  have := longestRunAux_le s 0
  simpa [longest_run] using this

theorem longest_run_eq_zero_iff (s : List Bool) :
    longest_run s = 0 ↔ ∀ b ∈ s, b = false := by
  rw [longest_run, longestRunAux_eq_zero s 0]
  simp

theorem longestRunAux_replicate_false (m : Nat) :
    ∀ cur : Nat, longestRunAux (List.replicate m false) cur = cur := by
  induction m with
  | zero => intro cur; simp [List.replicate, longestRunAux]
  | succ m ih =>
      intro cur
      rw [List.replicate_succ]
      simp only [longestRunAux]
      rw [ih 0]
      simp

theorem longest_run_replicate_true (n : Nat) :
    longest_run (List.replicate n true) = n := by
  have h := longestRunAux_replicate_true n [] 0
  rw [List.append_nil] at h
  rw [longest_run, h]
  simp [longestRunAux]

theorem longest_run_replicate_false (m : Nat) :
    longest_run (List.replicate m false) = 0 :=
  longestRunAux_replicate_false m 0

theorem windowedRunCountAux_replicate_false (w m : Nat) :
    windowedRunCountAux w (List.replicate m false) 0 = 0 := by
  induction m with
  | zero => simp [List.replicate, windowedRunCountAux]
  | succ m ih =>
      rw [List.replicate_succ]
      simp only [windowedRunCountAux]
      rw [ih]
      simp

theorem windowedRunEventsAux_replicate_false (w m : Nat) :
    windowedRunEventsAux w (List.replicate m false) 0 = 0 := by
  induction m with
  | zero => simp [List.replicate, windowedRunEventsAux]
  | succ m ih =>
      rw [List.replicate_succ]
      simp only [windowedRunEventsAux]
      rw [ih]
      simp

theorem windowedRunCountAux_flush (w m cur : Nat) :
    windowedRunCountAux w (List.replicate m false) cur =
      if 0 < cur ∧ w ≤ cur then 1 else 0 := by
  cases m with
  | zero => simp [List.replicate, windowedRunCountAux]
  | succ m =>
      rw [List.replicate_succ]
      simp only [windowedRunCountAux]
      rw [windowedRunCountAux_replicate_false]
      simp

theorem windowedRunEventsAux_flush (w m cur : Nat) :
    windowedRunEventsAux w (List.replicate m false) cur =
      if 0 < cur ∧ w ≤ cur then cur else 0 := by
  cases m with
  | zero => simp [List.replicate, windowedRunEventsAux]
  | succ m =>
      rw [List.replicate_succ]
      simp only [windowedRunEventsAux]
      rw [windowedRunEventsAux_replicate_false]
      simp

theorem longest_run_replicate_false_append (m : Nat) (s : List Bool) :
    longest_run (List.replicate m false ++ s) = longest_run s := by
  induction m with
  | zero => simp [List.replicate]
  | succ m ih =>
      rw [List.replicate_succ, List.cons_append, longest_run_false_cons]
      exact ih

theorem windowed_run_count_replicate_false_append (w m : Nat) (s : List Bool) :
    windowed_run_count (List.replicate m false ++ s) w = windowed_run_count s w := by
  induction m with
  | zero => simp [List.replicate]
  | succ m ih =>
      rw [List.replicate_succ, List.cons_append, windowed_run_count_false_cons]
      exact ih

theorem windowed_run_events_replicate_false_append (w m : Nat) (s : List Bool) :
    windowed_run_events (List.replicate m false ++ s) w = windowed_run_events s w := by
  induction m with
  | zero => simp [List.replicate]
  | succ m ih =>
      rw [List.replicate_succ, List.cons_append, windowed_run_events_false_cons]
      exact ih

/-! ### Monotonicity of the windowed statistics in the window -/

theorem windowedRunCountAux_anti (w w' : Nat) (hw : w ≤ w') (s : List Bool) :
    ∀ cur : Nat, windowedRunCountAux w' s cur ≤ windowedRunCountAux w s cur := by
  induction s with
  | nil =>
      intro cur
      simp only [windowedRunCountAux]
      split_ifs with h1 h2 <;> omega
  | cons b t ih =>
      intro cur
      cases b with
      | true =>
          simp only [windowedRunCountAux]
          exact ih (cur + 1)
      | false =>
          simp only [windowedRunCountAux]
          have := ih 0
          split_ifs with h1 h2 <;> omega

theorem windowedRunEventsAux_anti (w w' : Nat) (hw : w ≤ w') (s : List Bool) :
    ∀ cur : Nat, windowedRunEventsAux w' s cur ≤ windowedRunEventsAux w s cur := by
  induction s with
  | nil =>
      intro cur
      simp only [windowedRunEventsAux]
      split_ifs with h1 h2 <;> omega
  | cons b t ih =>
      intro cur
      cases b with
      | true =>
          simp only [windowedRunEventsAux]
          exact ih (cur + 1)
      | false =>
          simp only [windowedRunEventsAux]
          have := ih 0
          split_ifs with h1 h2 <;> omega

end Xclim

namespace Xclim

/-! ## Calendar alignment (day-of-year threshold curves) -/

/-- A day-of-year climatological reference curve (spec section 3,
`DayOfYearCurve`): a threshold value per day-of-year `1 .. days`,
with `days` the declared calendar coverage (365 or 366). -/
structure DayOfYearCurve where
  days : Nat
  value : Nat → ℚ

/-- Modelled from the spec: `utils.adjust_doy_calendar` followed by the
day-of-year selection (spec section 4.1). `utils` is not among the
sources, only its callers are. A requested day-of-year inside the
declared coverage looks the curve up directly; a day beyond it (for
example day 366 against a 365-day curve) is interpolated between the
two nearest available entries, circularly wrapping from the last
declared day back to day 1, instead of failing out of range. -/
def alignDay (c : DayOfYearCurve) (d : Nat) : ℚ :=
  if d ≤ c.days then c.value d else (c.value c.days + c.value 1) / 2

/-- Aligned threshold values for a list of target days-of-year: one
value per requested entry, in the same order. -/
def align (c : DayOfYearCurve) (ds : List Nat) : List ℚ :=
  ds.map (alignDay c)

/-- A percentile curve as received by the indicator functions: the
day-of-year coordinate may be absent (`none`) when the climatology was
never built with day-of-year labeling. -/
structure PercentileCurve where
  dayofyear : Option DayOfYearCurve

/-! ## Indicator functions of `xclim/indices/indices.py`

A resampled series is embedded as a list of groups (the external
resampler's output); each day carries its day-of-year and its value. -/

/-- Boolean mask `tasmin < thresh` for one group of
`cold_spell_duration_index` (indices.py line 204). -/
def cold_spell_mask (c : DayOfYearCurve) (g : List (Nat × ℚ)) : List Bool :=
  g.map (fun p => decide (p.2 < alignDay c p.1))

/-- Boolean mask `tasmax > thresh` for one group of
`warm_spell_duration_index` (indices.py line 1327). -/
def warm_spell_mask (c : DayOfYearCurve) (g : List (Nat × ℚ)) : List Bool :=
  g.map (fun p => decide (alignDay c p.1 < p.2))

/-- Embedding of `cold_spell_duration_index` (indices.py lines 190-206):
fails when the percentile curve has no day-of-year coordinate, otherwise
applies `rl.windowed_run_count` to the below-threshold mask of every
resampled group. -/
def cold_spell_duration_index (tasmin : List (List (Nat × ℚ)))
    (tn10 : PercentileCurve) (window : Nat) : Except XclimError (List Nat) :=
  match tn10.dayofyear with
  | none => Except.error
      (XclimError.CalendarMismatchError "tn10 should have dayofyear coordinates.")
  | some c => Except.ok
      (tasmin.map (fun g => windowed_run_count (cold_spell_mask c g) window))

/-- Embedding of `warm_spell_duration_index` (indices.py lines
1314-1329): fails when the percentile curve has no day-of-year
coordinate, otherwise applies `rl.windowed_run_count` to the
above-threshold mask of every resampled group. -/
def warm_spell_duration_index (tasmax : List (List (Nat × ℚ)))
    (tx90 : PercentileCurve) (window : Nat) : Except XclimError (List Nat) :=
  match tx90.dayofyear with
  | none => Except.error
      (XclimError.CalendarMismatchError "tx90 should have dayofyear coordinates.")
  | some c => Except.ok
      (tasmax.map (fun g => windowed_run_count (warm_spell_mask c g) window))

/-- Embedding of `tg90p` (indices.py lines 933-949): per period, the
count of days with daily mean temperature over the aligned percentile. -/
def tg90p (tas : List (List (Nat × ℚ))) (t90 : PercentileCurve) :
    Except XclimError (List Nat) :=
  match t90.dayofyear with
  | none => Except.error
      (XclimError.CalendarMismatchError "t10 should have dayofyear coordinates.")
  | some c => Except.ok
      (tas.map (fun g => (g.filter (fun p => decide (alignDay c p.1 < p.2))).length))

/-- Embedding of `tg10p` (indices.py lines 982-998). -/
def tg10p (tas : List (List (Nat × ℚ))) (t10 : PercentileCurve) :
    Except XclimError (List Nat) :=
  match t10.dayofyear with
  | none => Except.error
      (XclimError.CalendarMismatchError "t10 should have dayofyear coordinates.")
  | some c => Except.ok
      (tas.map (fun g => (g.filter (fun p => decide (p.2 < alignDay c p.1))).length))

/-- Embedding of `tn90p` (indices.py lines 1031-1045). -/
def tn90p (tasmin : List (List (Nat × ℚ))) (t90 : PercentileCurve) :
    Except XclimError (List Nat) :=
  match t90.dayofyear with
  | none => Except.error
      (XclimError.CalendarMismatchError "t10 should have dayofyear coordinates.")
  | some c => Except.ok
      (tasmin.map (fun g => (g.filter (fun p => decide (alignDay c p.1 < p.2))).length))

/-- Embedding of `tn10p` (indices.py lines 1079-1094). -/
def tn10p (tasmin : List (List (Nat × ℚ))) (t10 : PercentileCurve) :
    Except XclimError (List Nat) :=
  match t10.dayofyear with
  | none => Except.error
      (XclimError.CalendarMismatchError "t10 should have dayofyear coordinates.")
  | some c => Except.ok
      (tasmin.map (fun g => (g.filter (fun p => decide (p.2 < alignDay c p.1))).length))

/-- Embedding of `tx90p` (indices.py lines 1162-1178). -/
def tx90p (tasmax : List (List (Nat × ℚ))) (t90 : PercentileCurve) :
    Except XclimError (List Nat) :=
  match t90.dayofyear with
  | none => Except.error
      (XclimError.CalendarMismatchError "t10 should have dayofyear coordinates.")
  | some c => Except.ok
      (tasmax.map (fun g => (g.filter (fun p => decide (alignDay c p.1 < p.2))).length))

/-- Embedding of `tx10p` (indices.py lines 1211-1227). -/
def tx10p (tasmax : List (List (Nat × ℚ))) (t10 : PercentileCurve) :
    Except XclimError (List Nat) :=
  match t10.dayofyear with
  | none => Except.error
      (XclimError.CalendarMismatchError "t10 should have dayofyear coordinates.")
  | some c => Except.ok
      (tasmax.map (fun g => (g.filter (fun p => decide (p.2 < alignDay c p.1))).length))

/-- The heat wave condition of `heat_wave_frequency` and
`heat_wave_max_length` (indices.py lines 572 and 632): both the daily
minimum and the daily maximum temperature exceed their thresholds. -/
def heat_wave_mask (thresh_tasmin thresh_tasmax : ℚ) (g : List (ℚ × ℚ)) :
    List Bool :=
  g.map (fun p => decide (thresh_tasmin < p.1) && decide (thresh_tasmax < p.2))

/-- Embedding of `heat_wave_frequency` (indices.py lines 569-574): the
per-period statistic is `rl.windowed_run_events` of the heat wave
condition. Each group pairs the daily minimum and maximum temperature. -/
def heat_wave_frequency (groups : List (List (ℚ × ℚ)))
    (thresh_tasmin thresh_tasmax : ℚ) (window : Nat) : List Nat :=
  groups.map (fun g =>
    windowed_run_events (heat_wave_mask thresh_tasmin thresh_tasmax g) window)

/-- The per-period value of `heat_wave_max_length` (indices.py lines
634-635): `rl.longest_run` of the heat wave condition, set to 0 by
`max_l.where(max_l >= window, 0)` when below `window`. -/
def heat_wave_max_length_group (thresh_tasmin thresh_tasmax : ℚ)
    (window : Nat) (g : List (ℚ × ℚ)) : Nat :=
  let maxl := longest_run (heat_wave_mask thresh_tasmin thresh_tasmax g)
  if window ≤ maxl then maxl else 0

/-- Embedding of `heat_wave_max_length` (indices.py lines 629-635). -/
def heat_wave_max_length (groups : List (List (ℚ × ℚ)))
    (thresh_tasmin thresh_tasmax : ℚ) (window : Nat) : List Nat :=
  groups.map (heat_wave_max_length_group thresh_tasmin thresh_tasmax window)

/-- Embedding of `maximum_consecutive_dry_days` (indices.py lines
285-288): `rl.longest_run` of the dry mask `pr < thresh` per group. -/
def maximum_consecutive_dry_days (pr : List (List ℚ)) (thresh : ℚ) : List Nat :=
  pr.map (fun g => longest_run (g.map (fun x => decide (x < thresh))))

/-- Embedding of `consecutive_frost_days` (indices.py lines 324-330):
`rl.longest_run` of the frost mask `tasmin < 0` (degC) per group. -/
def consecutive_frost_days (tasmin : List (List ℚ)) : List Nat :=
  tasmin.map (fun g => longest_run (g.map (fun x => decide (x < 0))))

/-! ## Seasonal precipitation ratios -/

/-- The label of a resampled period: its starting year and month. -/
structure PeriodLabel where
  year : Int
  month : Nat
deriving DecidableEq, Repr

/-- One seasonal group of the precipitation series, as produced by the
external `QS-DEC` resampler: daily total precipitation, daily solid
precipitation, and daily mean temperature over the period. -/
structure SeasonGroup where
  label : PeriodLabel
  pr : List ℚ
  prsn : List ℚ
  tas : List ℚ

/-- Embedding of `liquid_precip_ratio` (indices.py lines 714-725): per
period, the ratio of liquid precipitation (total minus solid) to total
precipitation. When no solid precipitation series is given
(`prsnGiven = false`), precipitation is taken to be solid on the days
whose mean temperature is below 0 degC (`pr.where(tas < frz, 0)`). -/
def liquid_precip_ratio (groups : List SeasonGroup) (prsnGiven : Bool) :
    List (PeriodLabel × ℚ) :=
  groups.map (fun g =>
    let prsnSeries :=
      if prsnGiven then g.prsn
      else (g.pr.zip g.tas).map (fun p => if p.2 < 0 then p.1 else 0)
    let tot := g.pr.sum
    (g.label, (tot - prsnSeries.sum) / tot))

/-- Boolean-mask selection, the embedding of `ratio[winter]` (xarray
boolean indexing, indices.py line 1357): keeps the entries whose mask
position is `true`, in order. -/
def maskSelect {α : Type} : List α → List Bool → List α
  | [], _ => []
  | _ :: _, [] => []
  | x :: xs, b :: bs => if b then x :: maskSelect xs bs else maskSelect xs bs

/-- Embedding of `winter_rain_ratio` (indices.py lines 1355-1357):
computes `liquid_precip_ratio` at seasonal `QS-DEC` frequency, builds
the boolean mask `ratio.indexes['time'].month == 12`, and selects by
that mask. -/
def winter_rain_ratio (groups : List SeasonGroup) (prsnGiven : Bool) :
    List (PeriodLabel × ℚ) :=
  let ratio := liquid_precip_ratio groups prsnGiven
  maskSelect ratio (ratio.map (fun p => p.1.month == 12))

theorem maskSelect_map_eq_filter {α : Type} (xs : List α) (f : α → Bool) :
    maskSelect xs (xs.map f) = xs.filter f := by
  induction xs with
  | nil => rfl
  | cons x xs ih =>
      simp only [List.map_cons, maskSelect, List.filter]
      by_cases h : f x
      · rw [h, ih]; simp
      · simp only [Bool.not_eq_true] at h
        rw [h, ih]; simp

end Xclim

namespace Xclim

/-! ### Further helper lemmas on replicate shapes -/

theorem longest_run_replicate_true_append_false (n m : Nat) :
    longest_run (List.replicate n true ++ List.replicate m false) = n := by
  rw [longest_run, longestRunAux_replicate_true, Nat.zero_add,
    longestRunAux_replicate_false]

theorem windowed_run_count_replicate_true_append_false (n m w : Nat) :
    windowed_run_count (List.replicate n true ++ List.replicate m false) w =
      if 0 < n ∧ w ≤ n then 1 else 0 := by
  rw [windowed_run_count, windowedRunCountAux_replicate_true, Nat.zero_add,
    windowedRunCountAux_flush]

theorem windowed_run_events_replicate_true_append_false (n m w : Nat) :
    windowed_run_events (List.replicate n true ++ List.replicate m false) w =
      if 0 < n ∧ w ≤ n then n else 0 := by
  rw [windowed_run_events, windowedRunEventsAux_replicate_true, Nat.zero_add,
    windowedRunEventsAux_flush]

theorem windowed_run_count_replicate_true (n w : Nat) :
    windowed_run_count (List.replicate n true) w =
      if 0 < n ∧ w ≤ n then 1 else 0 := by
  have h := windowed_run_count_replicate_true_append_false n 0 w
  simpa using h

theorem windowed_run_events_replicate_true (n w : Nat) :
    windowed_run_events (List.replicate n true) w =
      if 0 < n ∧ w ≤ n then n else 0 := by
  have h := windowed_run_events_replicate_true_append_false n 0 w
  simpa using h

theorem isErr_windowed_run_count_checked (s : List Bool) (w : Int) :
    isErr (windowed_run_count_checked s w) = true ↔ w ≤ 0 := by
  by_cases h : w ≤ 0 <;> simp [windowed_run_count_checked, h, isErr]

theorem isErr_windowed_run_events_checked (s : List Bool) (w : Int) :
    isErr (windowed_run_events_checked s w) = true ↔ w ≤ 0 := by
  by_cases h : w ≤ 0 <;> simp [windowed_run_events_checked, h, isErr]

end Xclim

namespace Xclim

/-! ## Claim theorems -/

/-- C1: for every boolean group and every positive window,
`windowed_run_count` returns the number of maximal runs of consecutive
`true` values of length at least `window`, each qualifying run
contributing exactly 1 regardless of its extra length; this is the
statistic `cold_spell_duration_index` and `warm_spell_duration_index`
apply (as `rl.windowed_run_count`) to each resampled group. -/
theorem windowed_run_count_counts_qualifying_runs
    (s : List Bool) (w : Nat) (rs : List Nat)
    (tasmin tasmax : List (List (Nat × ℚ))) (c : DayOfYearCurve)
    (hw : 0 < w) (hrs : RunsSpec s rs) :
    windowed_run_count s w = (rs.filter (fun L => decide (w ≤ L))).length
    ∧ cold_spell_duration_index tasmin ⟨some c⟩ w =
        Except.ok (tasmin.map (fun g => windowed_run_count (cold_spell_mask c g) w))
    ∧ warm_spell_duration_index tasmax ⟨some c⟩ w =
        Except.ok (tasmax.map (fun g => windowed_run_count (warm_spell_mask c g) w)) :=
  ⟨windowed_run_count_of_runsSpec hrs w, rfl, rfl⟩

/-- Witness for C1 at the spec's concrete scenario 1:
`s = [T,T,T,F,T,T,T,T,F]`, `window = 4`, maximal runs `[3, 4]`. -/
theorem windowed_run_count_counts_qualifying_runs_witness :
    0 < 4
    ∧ RunsSpec [true, true, true, false, true, true, true, true, false] [3, 4]
    ∧ windowed_run_count [true, true, true, false, true, true, true, true, false] 4 =
        (([3, 4] : List Nat).filter (fun L => decide (4 ≤ L))).length := by
  have d2 : RunsSpec [false] [] := RunsSpec.cons_false RunsSpec.nil
  have d3 : RunsSpec [true, true, true, true, false] [4] :=
    @RunsSpec.run 4 [false] [] (by omega) (Or.inr ⟨[], rfl⟩) d2
  have d4 : RunsSpec [false, true, true, true, true, false] [4] := RunsSpec.cons_false d3
  have d5 : RunsSpec [true, true, true, false, true, true, true, true, false] [3, 4] :=
    @RunsSpec.run 3 [false, true, true, true, true, false] [4] (by omega)
      (Or.inr ⟨[true, true, true, true, false], rfl⟩) d4
  exact ⟨by omega, d5,
    (windowed_run_count_counts_qualifying_runs _ 4 _ [] [] ⟨365, fun _ => 0⟩
      (by omega) d5).1⟩

/-- C2: for every boolean group and every positive window,
`windowed_run_events` returns the total number of `true` entries lying
in some maximal run of length at least `window`: a run of length
`L ≥ window` contributes `L`, shorter runs contribute 0; this is the
statistic `heat_wave_frequency` applies (as `rl.windowed_run_events`)
to each resampled group. -/
theorem windowed_run_events_counts_qualifying_days
    (s : List Bool) (w : Nat) (rs : List Nat)
    (groups : List (List (ℚ × ℚ))) (thresh_tasmin thresh_tasmax : ℚ)
    (hw : 0 < w) (hrs : RunsSpec s rs) :
    windowed_run_events s w = (rs.filter (fun L => decide (w ≤ L))).sum
    ∧ heat_wave_frequency groups thresh_tasmin thresh_tasmax w =
        groups.map (fun g =>
          windowed_run_events (heat_wave_mask thresh_tasmin thresh_tasmax g) w) :=
  ⟨windowed_run_events_of_runsSpec hrs w, rfl⟩

/-- Witness for C2 at the spec's concrete scenario 1: the qualifying
run of length 4 contributes its 4 days, the run of length 3 nothing. -/
theorem windowed_run_events_counts_qualifying_days_witness :
    0 < 4
    ∧ RunsSpec [true, true, true, false, true, true, true, true, false] [3, 4]
    ∧ windowed_run_events [true, true, true, false, true, true, true, true, false] 4 =
        (([3, 4] : List Nat).filter (fun L => decide (4 ≤ L))).sum := by
  have d2 : RunsSpec [false] [] := RunsSpec.cons_false RunsSpec.nil
  have d3 : RunsSpec [true, true, true, true, false] [4] :=
    @RunsSpec.run 4 [false] [] (by omega) (Or.inr ⟨[], rfl⟩) d2
  have d4 : RunsSpec [false, true, true, true, true, false] [4] := RunsSpec.cons_false d3
  have d5 : RunsSpec [true, true, true, false, true, true, true, true, false] [3, 4] :=
    @RunsSpec.run 3 [false, true, true, true, true, false] [4] (by omega)
      (Or.inr ⟨[true, true, true, true, false], rfl⟩) d4
  exact ⟨by omega, d5,
    (windowed_run_events_counts_qualifying_days _ 4 _ [] 0 0 (by omega) d5).1⟩

/-- C3: whenever the percentile curve passed to a percentile-based
indicator (`cold_spell_duration_index`, `warm_spell_duration_index`,
`tg90p`, `tg10p`, `tn90p`, `tn10p`, `tx90p`, `tx10p`) lacks a
day-of-year coordinate, the computation fails with the calendar
mismatch error for every query, before producing any output. -/
theorem missing_dayofyear_raises_calendar_mismatch
    (tasmin tasmax tas txs tns : List (List (Nat × ℚ))) (window : Nat)
    (curve : PercentileCurve) (hc : curve.dayofyear = none) :
    isCalendarMismatch (cold_spell_duration_index tasmin curve window) = true
    ∧ isCalendarMismatch (warm_spell_duration_index tasmax curve window) = true
    ∧ isCalendarMismatch (tg90p tas curve) = true
    ∧ isCalendarMismatch (tg10p tas curve) = true
    ∧ isCalendarMismatch (tn90p tns curve) = true
    ∧ isCalendarMismatch (tn10p tns curve) = true
    ∧ isCalendarMismatch (tx90p txs curve) = true
    ∧ isCalendarMismatch (tx10p txs curve) = true := by
  rcases curve with ⟨doy⟩
  simp only at hc
  subst hc
  exact ⟨rfl, rfl, rfl, rfl, rfl, rfl, rfl, rfl⟩

/-- Witness for C3: a curve without day-of-year coordinate makes
`cold_spell_duration_index` and `tg90p` fail with the calendar
mismatch error on a concrete query. -/
theorem missing_dayofyear_raises_calendar_mismatch_witness :
    (PercentileCurve.mk none).dayofyear = none
    ∧ isCalendarMismatch
        (cold_spell_duration_index [[(1, 3)]] (PercentileCurve.mk none) 6) = true
    ∧ isCalendarMismatch (tg90p [[(1, 3)]] (PercentileCurve.mk none)) = true := by
  have h := missing_dayofyear_raises_calendar_mismatch
    [[(1, 3)]] [] [[(1, 3)]] [] [] 6 (PercentileCurve.mk none) rfl
  exact ⟨rfl, h.1, h.2.2.1⟩

/-- C4: for every boolean sequence `s`, `longest_run s` is at most
`length s`, and it equals 0 exactly when `s` has no `true` entry; this
is the per-group statistic of `maximum_consecutive_dry_days` and
`consecutive_frost_days` (via `rl.longest_run`). -/
theorem longest_run_le_length_and_zero_iff
    (s : List Bool) (pr tasmin : List (List ℚ)) (thresh : ℚ) :
    longest_run s ≤ s.length
    ∧ (longest_run s = 0 ↔ true ∉ s)
    ∧ maximum_consecutive_dry_days pr thresh =
        pr.map (fun g => longest_run (g.map (fun x => decide (x < thresh))))
    ∧ consecutive_frost_days tasmin =
        tasmin.map (fun g => longest_run (g.map (fun x => decide (x < 0)))) := by
  have hconv : (∀ b ∈ s, b = false) ↔ true ∉ s := by
    constructor
    · intro h ht
      exact absurd (h true ht) (by simp)
    · intro h b hb
      cases b with
      | false => rfl
      | true => exact absurd hb h
  exact ⟨longest_run_le_length s, (longest_run_eq_zero_iff s).trans hconv, rfl, rfl⟩

end Xclim

namespace Xclim

/-- C5: runs touching either group boundary count in full for all three
run-length statistics: `longest_run [true, true, false] = 2` and
`longest_run [false, true, true] = 2`, and in general a qualifying run
starting at index 0 or ending at the last index is counted without
requiring a bounding `false` on both sides. -/
theorem boundary_runs_count_in_full (n m w : Nat) (hn : 0 < n) (hw : w ≤ n) :
    longest_run [true, true, false] = 2
    ∧ longest_run [false, true, true] = 2
    ∧ longest_run (List.replicate n true ++ List.replicate m false) = n
    ∧ longest_run (List.replicate m false ++ List.replicate n true) = n
    ∧ windowed_run_count (List.replicate n true ++ List.replicate m false) w = 1
    ∧ windowed_run_count (List.replicate m false ++ List.replicate n true) w = 1
    ∧ windowed_run_events (List.replicate n true ++ List.replicate m false) w = n
    ∧ windowed_run_events (List.replicate m false ++ List.replicate n true) w = n := by
  refine ⟨by decide, by decide, ?_, ?_, ?_, ?_, ?_, ?_⟩
  · exact longest_run_replicate_true_append_false n m
  · rw [longest_run_replicate_false_append, longest_run_replicate_true]
  · rw [windowed_run_count_replicate_true_append_false, if_pos ⟨hn, hw⟩]
  · rw [windowed_run_count_replicate_false_append, windowed_run_count_replicate_true,
      if_pos ⟨hn, hw⟩]
  · rw [windowed_run_events_replicate_true_append_false, if_pos ⟨hn, hw⟩]
  · rw [windowed_run_events_replicate_false_append, windowed_run_events_replicate_true,
      if_pos ⟨hn, hw⟩]

/-- Witness for C5 at `n = 2`, `m = 1`, `window = 2`. -/
theorem boundary_runs_count_in_full_witness :
    0 < 2 ∧ 2 ≤ 2
    ∧ longest_run [true, true, false] = 2
    ∧ longest_run [false, true, true] = 2
    ∧ windowed_run_count (List.replicate 2 true ++ List.replicate 1 false) 2 = 1
    ∧ windowed_run_events (List.replicate 1 false ++ List.replicate 2 true) 2 = 2 := by
  have h := boundary_runs_count_in_full 2 1 2 (by omega) (by omega)
  exact ⟨by omega, by omega, h.1, h.2.1, h.2.2.2.2.1, h.2.2.2.2.2.2.2⟩

/-- C6: for a fixed boolean sequence, both `windowed_run_count` and
`windowed_run_events` are non-increasing as the window grows. -/
theorem windowed_statistics_antitone_in_window
    (s : List Bool) (w w' : Nat) (hw : w ≤ w') :
    windowed_run_count s w' ≤ windowed_run_count s w
    ∧ windowed_run_events s w' ≤ windowed_run_events s w :=
  ⟨windowedRunCountAux_anti w w' hw s 0, windowedRunEventsAux_anti w w' hw s 0⟩

/-- Witness for C6 at `s = [T,T,F,T]`, `w = 1`, `w' = 2`. -/
theorem windowed_statistics_antitone_in_window_witness :
    1 ≤ 2
    ∧ windowed_run_count [true, true, false, true] 2 ≤
        windowed_run_count [true, true, false, true] 1
    ∧ windowed_run_events [true, true, false, true] 2 ≤
        windowed_run_events [true, true, false, true] 1 := by
  have h := windowed_statistics_antitone_in_window [true, true, false, true] 1 2 (by omega)
  exact ⟨by omega, h.1, h.2⟩

/-- C7: the run-length engine never raises on empty, all-false or
all-true groups (empty gives 0 for all three statistics, all-true of
length `n` gives `longest_run = n`), and the windowed statistics raise
`InvalidWindowError` exactly when the supplied window is not positive. -/
theorem engine_failure_semantics (w : Int) (n : Nat) (s : List Bool) :
    (0 < w → windowed_run_count_checked [] w = Except.ok 0
        ∧ windowed_run_events_checked [] w = Except.ok 0)
    ∧ longest_run [] = 0
    ∧ longest_run (List.replicate n false) = 0
    ∧ longest_run (List.replicate n true) = n
    ∧ (0 < w → isErr (windowed_run_count_checked (List.replicate n false) w) = false
        ∧ isErr (windowed_run_events_checked (List.replicate n false) w) = false
        ∧ isErr (windowed_run_count_checked (List.replicate n true) w) = false
        ∧ isErr (windowed_run_events_checked (List.replicate n true) w) = false)
    ∧ (isErr (windowed_run_count_checked s w) = true ↔ w ≤ 0)
    ∧ (isErr (windowed_run_events_checked s w) = true ↔ w ≤ 0) := by
  refine ⟨?_, rfl, longest_run_replicate_false n, longest_run_replicate_true n, ?_,
    isErr_windowed_run_count_checked s w, isErr_windowed_run_events_checked s w⟩
  · intro hw
    have h : ¬ w ≤ 0 := by omega
    constructor
    · simp [windowed_run_count_checked, h, windowed_run_count, windowedRunCountAux]
    · simp [windowed_run_events_checked, h, windowed_run_events, windowedRunEventsAux]
  · intro hw
    have h : ¬ w ≤ 0 := by omega
    refine ⟨?_, ?_, ?_, ?_⟩ <;>
      simp [windowed_run_count_checked, windowed_run_events_checked, h, isErr]

/-- Witness for C7 at `w = 2`, `n = 3`, `s = [false]`. -/
theorem engine_failure_semantics_witness :
    (0 : Int) < 2
    ∧ windowed_run_count_checked [] 2 = Except.ok 0
    ∧ windowed_run_events_checked [] 2 = Except.ok 0
    ∧ longest_run (List.replicate 3 true) = 3
    ∧ isErr (windowed_run_count_checked (List.replicate 3 false) 2) = false
    ∧ isErr (windowed_run_count_checked [false] (-1)) = true := by
  have h := engine_failure_semantics 2 3 [false]
  have h2 := engine_failure_semantics (-1) 3 [false]
  exact ⟨by omega, (h.1 (by omega)).1, (h.1 (by omega)).2, h.2.2.2.1,
    ((h.2.2.2.2.1 (by omega)).1), (h2.2.2.2.2.2.1).mpr (by omega)⟩

end Xclim

namespace Xclim

/-- A 365-day curve whose entries for day 365 and day 1 coincide. -/
def constCurve365 : DayOfYearCurve := ⟨365, fun _ => 5⟩

/-- A 365-day curve whose entries for day 365 and day 1 differ. -/
def stepCurve365 : DayOfYearCurve := ⟨365, fun d => if d = 1 then 0 else 10⟩

/-- C8 counterexample: on a 365-day curve whose entries for day 365 and
day 1 are equal, the aligned value for day 366 equals that common
value, so it is not strictly between the two entries; the claim as
stated fails for this curve. -/
theorem align_day366_not_strictly_between_counterexample :
    constCurve365.days = 365
    ∧ ¬ (min (constCurve365.value 365) (constCurve365.value 1)
          < alignDay constCurve365 366
        ∧ alignDay constCurve365 366
          < max (constCurve365.value 365) (constCurve365.value 1)) := by
  refine ⟨rfl, ?_⟩
  intro h
  have h3 : alignDay constCurve365 366 = 5 := by
    rw [alignDay]
    norm_num [constCurve365]
  have h1 : constCurve365.value 365 = 5 := rfl
  have h2 : constCurve365.value 1 = 5 := rfl
  rw [h1, h2, h3] at h
  simp at h

/-- C8 (amended): mapping a 365-entry day-of-year curve onto a target
containing day 366 always yields the circular interpolation between
the entries for day 365 and day 1, never an out-of-range failure; the
interpolated value lies strictly between the two entries whenever they
differ, and equals their common value when they coincide. -/
theorem align_day366_interpolates_between
    (c : DayOfYearCurve) (hd : c.days = 365) :
    alignDay c 366 = (c.value 365 + c.value 1) / 2
    ∧ (c.value 365 ≠ c.value 1 →
        min (c.value 365) (c.value 1) < alignDay c 366
        ∧ alignDay c 366 < max (c.value 365) (c.value 1))
    ∧ (c.value 365 = c.value 1 → alignDay c 366 = c.value 365) := by
  have h1 : alignDay c 366 = (c.value 365 + c.value 1) / 2 := by
    rw [alignDay, hd]
    norm_num
  refine ⟨h1, ?_, ?_⟩
  · intro hne
    constructor
    · rw [h1]
      rcases lt_or_gt_of_ne hne with h | h
      · rw [min_eq_left h.le]
        linarith
      · rw [min_eq_right h.le]
        linarith
    · rw [h1]
      rcases lt_or_gt_of_ne hne with h | h
      · rw [max_eq_right h.le]
        linarith
      · rw [max_eq_left h.le]
        linarith
  · intro heq
    rw [h1, heq]
    ring

/-- Witness for the amended C8, exercising both cases: on a curve
jumping from 0 (day 1) to 10 (day 365) the aligned value for day 366
is the midpoint 5, strictly between the two entries; on the constant
curve it equals the common value 5. -/
theorem align_day366_interpolates_between_witness :
    stepCurve365.days = 365
    ∧ stepCurve365.value 365 ≠ stepCurve365.value 1
    ∧ alignDay stepCurve365 366 =
        (stepCurve365.value 365 + stepCurve365.value 1) / 2
    ∧ min (stepCurve365.value 365) (stepCurve365.value 1)
        < alignDay stepCurve365 366
    ∧ constCurve365.value 365 = constCurve365.value 1
    ∧ alignDay constCurve365 366 = constCurve365.value 365 := by
  have hne : stepCurve365.value 365 ≠ stepCurve365.value 1 := by
    norm_num [stepCurve365]
  have h := align_day366_interpolates_between stepCurve365 rfl
  have h0 := align_day366_interpolates_between constCurve365 rfl
  exact ⟨rfl, hne, h.1, (h.2.1 hne).1, rfl, h0.2.2 rfl⟩

/-- C9: every per-period value of `heat_wave_max_length` is either 0 or
at least `window`: when the longest qualifying run of a period is
shorter than `window`, the period's value is replaced by 0 rather than
the run's actual length. -/
theorem heat_wave_max_length_zero_or_ge_window
    (groups : List (List (ℚ × ℚ))) (thresh_tasmin thresh_tasmax : ℚ)
    (window : Nat) (v : Nat) (g : List (ℚ × ℚ))
    (hv : v ∈ heat_wave_max_length groups thresh_tasmin thresh_tasmax window) :
    (v = 0 ∨ window ≤ v)
    ∧ (longest_run (heat_wave_mask thresh_tasmin thresh_tasmax g) < window →
        heat_wave_max_length_group thresh_tasmin thresh_tasmax window g = 0) := by
  constructor
  · rcases List.mem_map.mp hv with ⟨g0, hg0, hval⟩
    rw [heat_wave_max_length_group] at hval
    by_cases hcase :
        window ≤ longest_run (heat_wave_mask thresh_tasmin thresh_tasmax g0)
    · right
      rw [← hval, if_pos hcase]
      exact hcase
    · left
      rw [← hval, if_neg hcase]
  · intro hlt
    rw [heat_wave_max_length_group, if_neg (Nat.not_le_of_lt hlt)]

/-- Witness for C9: one period with a single hot day and `window = 3`
produces the value 0 (not the actual run length 1). -/
theorem heat_wave_max_length_zero_or_ge_window_witness :
    0 ∈ heat_wave_max_length [[(25, 35)]] 22 30 3
    ∧ longest_run (heat_wave_mask 22 30 [(25, 35)]) < 3
    ∧ ((0 : Nat) = 0 ∨ 3 ≤ (0 : Nat))
    ∧ heat_wave_max_length_group 22 30 3 [(25, 35)] = 0 := by
  have hmem : 0 ∈ heat_wave_max_length [[(25, 35)]] 22 30 3 := by decide
  have hlt : longest_run (heat_wave_mask 22 30 [(25, 35)]) < 3 := by decide
  have h := heat_wave_max_length_zero_or_ge_window
    [[(25, 35)]] 22 30 3 0 [(25, 35)] hmem
  exact ⟨hmem, hlt, h.1, h.2 hlt⟩

/-- C10: `winter_rain_ratio` returns exactly the entries of
`liquid_precip_ratio`'s seasonal output whose period label is in month
12, in the original order, with the per-entry values unchanged:
selection by the boolean mask `month == 12` equals a filter. -/
theorem winter_rain_ratio_is_december_filter
    (groups : List SeasonGroup) (prsnGiven : Bool) :
    winter_rain_ratio groups prsnGiven =
      (liquid_precip_ratio groups prsnGiven).filter (fun p => p.1.month == 12) := by
  rw [winter_rain_ratio]
  exact maskSelect_map_eq_filter _ _

end Xclim
